import Mathlib

/-!
Verification of the FindDomains repository: a shallow embedding of the four
scripts (FindNames.py, aidomains.py, checkcomorai.py, checkdomains_curl.py)
and proofs about their domain-availability classification, registry
resolution, and result-collection logic.

Network interaction is modelled by passing the network's behaviour as a
function from URL to outcome; randomness (sleep durations) is modelled by a
predicate of possible durations; everything else is translated directly from
the Python source.
-/

namespace FindDomains

/-! ### String helpers mirroring the Python primitives used by the scripts -/

/-- Boolean test that the first list is a prefix of the second
(used to implement Python's substring operator). -/
def charsBeginWith : List Char → List Char → Bool
  | [], _ => true
  | _ :: _, [] => false
  | a :: as, b :: bs => a == b && charsBeginWith as bs

/-- Boolean substring test on character lists: does `needle` occur
contiguously inside `hay`?  Implements Python's `needle in hay`. -/
def charsHaveSub (needle : List Char) : List Char → Bool
  | [] => needle.isEmpty
  | c :: rest => charsBeginWith needle (c :: rest) || charsHaveSub needle rest

/-- Python's `needle in hay` substring containment on strings. -/
def hasSub (hay needle : String) : Bool :=
  charsHaveSub needle.data hay.data

/-- Characters of the first line: everything before the first newline.
Implements Python's `s.split(chr(10))[0]` (the empty string yields the
empty string, exactly as in Python). -/
def charsUntilNewline : List Char → List Char
  | [] => []
  | c :: rest => if c == '\n' then [] else c :: charsUntilNewline rest

/-- Python's `s.split(chr(10))[0]`: the first line of `s`. -/
def firstLineOf (s : String) : String :=
  ⟨charsUntilNewline s.data⟩

/-- Python's `s.lower()` (ASCII-faithful). -/
def pyLower (s : String) : String :=
  ⟨s.data.map Char.toLower⟩

/-- Python's `s.strip()`: remove leading and trailing whitespace. -/
def pyStrip (s : String) : String :=
  ⟨((s.data.dropWhile Char.isWhitespace).reverse.dropWhile Char.isWhitespace).reverse⟩

/-- Python's `s.isalpha()`: nonempty and all characters alphabetic. -/
def pyIsAlpha (s : String) : Bool :=
  !s.data.isEmpty && s.data.all Char.isAlpha

/-- Characters after the last dot, accumulator-style; no dot at all keeps
the whole string.  Implements `domain.split(".")[-1]`. -/
def lastLabelChars : List Char → List Char → List Char
  | [], acc => acc.reverse
  | c :: rest, acc => if c == '.' then lastLabelChars rest [] else lastLabelChars rest (c :: acc)

/-- Python's `domain.split(".")[-1].lower()`: the lower-cased top-level
suffix of a domain string. -/
def lastLabel (domain : String) : String :=
  pyLower ⟨lastLabelChars domain.data []⟩

/-- The opening curly brace character, kept out of literals. -/
def lcurly : Char := Char.ofNat 123

/-- The closing curly brace character, kept out of literals. -/
def rcurly : Char := Char.ofNat 125

/-- Python's `template.format(arg)` for templates containing one
curly-brace placeholder: splice `arg` in place of the first occurrence of
the two-character placeholder. -/
def fillTemplate : List Char → List Char → List Char
  | [], _ => []
  | c :: rest, arg =>
    match rest with
    | [] => [c]
    | c2 :: rest2 =>
      if c == lcurly && c2 == rcurly then arg ++ rest2
      else c :: fillTemplate rest arg

/-- Python's `template.format(arg)` on strings. -/
def pyFormat (template arg : String) : String :=
  ⟨fillTemplate template.data arg.data⟩

/-! ### JSON model

The scripts inspect at most one field of the parsed response body
(`errorCode`), via `isinstance(j, dict) and j.get(chr(39)errorCode...) in (400, 404)`.
A parsed JSON value is modelled by the inductive below; a body that fails
to parse (`requests.Response.json()` raising `ValueError`) is `none` at
the use sites. -/

inductive Json where
  | num (n : Int)
  | str (s : String)
  | jbool (b : Bool)
  | null
  | arr (elems : List Json)
  | obj (fields : List (String × Json))

/-- Python's `dict.get(key)` on the field list of a JSON object
(first matching key wins; parsed JSON objects have unique keys). -/
def jsonGet : List (String × Json) → String → Option Json
  | [], _ => none
  | (k, v) :: rest, key => if k == key then some v else jsonGet rest key

/-- The body check shared verbatim by checkcomorai.py line 41 and
aidomains.py line 49: `isinstance(j, dict) and j.get(errorCode) in (400, 404)`,
where a body of `none` models a `ValueError` from `r.json()` (caught and
treated as a negative match in both scripts). -/
def jsonBodySignalsAvailable : Option Json → Bool
  | some (Json.obj fields) =>
    match jsonGet fields "errorCode" with
    | some (Json.num n) => n == 400 || n == 404
    | _ => false
  | _ => false

/-! ### Network outcome models -/

/-- Outcome of one `requests.get` call: a response (status code plus parsed
body, `none` when the body is not valid JSON), a `requests.exceptions.Timeout`,
or any other `requests.exceptions.RequestException`. -/
inductive NetOutcome where
  | ok (status : Nat) (body : Option Json)
  | timeout
  | netError

/-- Outcome of one `subprocess.run(curl -s -I url)` call: the captured
stdout (header text), or a raised exception (`subprocess.TimeoutExpired`
or anything else — both scripts catch all exceptions alike). -/
inductive CurlOutcome where
  | ok (stdout : String)
  | exc

/-! ### checkcomorai.py -/

/-- RDAP_ENDPOINTS of checkcomorai.py lines 13-17: map from top-level
suffix to RDAP URL template. -/
def RDAP_ENDPOINTS : List (String × String) :=
  [("com", "https://rdap.verisign.com/com/v1/domain/\x7b\x7d"),
   ("ai",  "https://rdap.identitydigital.services/rdap/domain/\x7b\x7d"),
   ("dev", "https://rdap.googleapis.com/rdap/v1/domain/\x7b\x7d")]

/-- Association-list lookup implementing Python's
`tld in RDAP_ENDPOINTS` / `RDAP_ENDPOINTS[tld]`. -/
def tableLookup : List (String × String) → String → Option String
  | [], _ => none
  | (k, v) :: rest, key => if k == key then some v else tableLookup rest key

/-- URL resolution of checkcomorai.py lines 20-26: the suffix table with
the IANA bootstrap f-string as the last resort. -/
def checkcomorai_resolve (domain : String) : String :=
  match tableLookup RDAP_ENDPOINTS (lastLabel domain) with
  | some t => pyFormat t domain
  | none => "https://rdap.iana.org/domain/" ++ domain

/-- Response classification of checkcomorai.py lines 36-45: 404 is
available; 200 defers to the JSON body check; everything else is taken. -/
def checkcomorai_classify (status : Nat) (body : Option Json) : Bool :=
  if status == 404 then true
  else if status == 200 then jsonBodySignalsAvailable body
  else false

/-- is_domain_available of checkcomorai.py lines 19-45, with the network
passed in as a function from URL to outcome.  `requests.exceptions.RequestException`
(which subsumes `Timeout`) is caught and yields False. -/
def checkcomorai_is_domain_available (domain : String) (net : String → NetOutcome) : Bool :=
  match net (checkcomorai_resolve domain) with
  | NetOutcome.ok status body => checkcomorai_classify status body
  | NetOutcome.timeout => false
  | NetOutcome.netError => false

/-! ### aidomains.py -/

/-- RDAP_AI_ENDPOINT of aidomains.py line 12. -/
def RDAP_AI_ENDPOINT : String :=
  "https://rdap.identitydigital.services/rdap/domain/\x7b\x7d"

/-- URL resolution of aidomains.py lines 16-21: only the suffix `ai` is
supported; any other suffix short-circuits to an Unavailable verdict
before any request is made (line 19), modelled as `none`. -/
def aidomains_resolve (domain : String) : Option String :=
  if lastLabel domain == "ai" then some (pyFormat RDAP_AI_ENDPOINT domain)
  else none

/-- Response classification of aidomains.py lines 43-66: 404 is available;
200 defers to the JSON body check; 429 and every other status fall through
to the final `return False`. -/
def aidomains_classify (status : Nat) (body : Option Json) : Bool :=
  if status == 404 then true
  else if status == 200 then jsonBodySignalsAvailable body
  else false

/-- is_domain_available of aidomains.py lines 14-66: non-ai suffixes are
rejected without probing; `Timeout` and `RequestException` both yield
False (lines 34-39). -/
def aidomains_is_domain_available (domain : String) (net : String → NetOutcome) : Bool :=
  match aidomains_resolve domain with
  | none => false
  | some url =>
    match net url with
    | NetOutcome.ok status body => aidomains_classify status body
    | NetOutcome.timeout => false
    | NetOutcome.netError => false

/-- Possible durations, in milliseconds, of the post-request sleep of
aidomains.py line 32: `time.sleep(random.uniform(0.1, 0.3))`, i.e. a value
drawn from the closed interval from 100 ms to 300 ms.  The sleep runs
after every completed request, before the verdict is returned to the
worker. -/
def aidomainsSleepMsPossible (ms : Nat) : Prop := 100 ≤ ms ∧ ms ≤ 300

instance (ms : Nat) : Decidable (aidomainsSleepMsPossible ms) := by
  unfold aidomainsSleepMsPossible; infer_instance

/-! ### The curl-based scripts: FindNames.py and checkdomains_curl.py -/

/-- Header-text classification shared by FindNames.py lines 23-32 and
checkdomains_curl.py lines 38-55: look only at the first line of curl's
captured stdout and substring-match, 404 before 200; everything else
(including a 429, after a sleep) is False.  FindNames.py omits the
`if result.stdout` guard of checkdomains_curl.py line 38, but Python's
split leaves the empty string's first line empty, so both compute the same
function of stdout. -/
def curlHeaderClassify (stdout : String) : Bool :=
  let line := firstLineOf stdout
  if hasSub line "404" then true
  else if hasSub line "200" then false
  else false

/-- Sleep, in milliseconds, performed by the curl-based classifiers:
`time.sleep(2)` when the first line contains 429 and neither 404 nor 200
matched first (FindNames.py lines 30-31, checkdomains_curl.py lines 49-50). -/
def curlSleepMs (stdout : String) : Nat :=
  let line := firstLineOf stdout
  if hasSub line "404" then 0
  else if hasSub line "200" then 0
  else if hasSub line "429" then 2000
  else 0

/-- RDAP URL of FindNames.py line 14: always the Verisign com endpoint,
whatever the candidate's suffix. -/
def findnames_url (domain : String) : String :=
  "https://rdap.verisign.com/com/v1/domain/" ++ domain

/-- is_domain_available of FindNames.py lines 12-35: run curl, classify the
first header line; any raised exception yields False. -/
def findnames_is_domain_available (domain : String) (net : String → CurlOutcome) : Bool :=
  match net (findnames_url domain) with
  | CurlOutcome.ok stdout => curlHeaderClassify stdout
  | CurlOutcome.exc => false

/-- URL resolution of checkdomains_curl.py lines 19-27: com and ai have
dedicated endpoints; any other suffix is reported unsupported and the
domain assumed unavailable without probing (line 27), modelled as `none`. -/
def checkdomainscurl_resolve (domain : String) : Option String :=
  if lastLabel domain == "com" then some ("https://rdap.verisign.com/com/v1/domain/" ++ domain)
  else if lastLabel domain == "ai" then some ("https://rdap.whois.ai/rdap/domain/" ++ domain)
  else none

/-- is_domain_available of checkdomains_curl.py lines 15-64. -/
def checkdomainscurl_is_domain_available (domain : String) (net : String → CurlOutcome) : Bool :=
  match checkdomainscurl_resolve domain with
  | none => false
  | some url =>
    match net url with
    | CurlOutcome.ok stdout => curlHeaderClassify stdout
    | CurlOutcome.exc => false

/-- Header line that curl prints for a response with the given status code
(e.g. HTTP/2 followed by the code).  FindNames.py sees only this header
text; the response body never reaches its classifier because curl is run
with the -I flag. -/
def statusLineFor (status : Nat) : String :=
  "HTTP/2 " ++ Nat.repr status

/-! ### The result-collection loop and finalization -/

/-- Outcome of waiting on one future with `future.result(timeout=...)`:
the wrapped check returned `(domain, available)`, the wait raised
`concurrent.futures.TimeoutError`, or some other exception was raised
while processing the result. -/
inductive TaskOutcome where
  | done (available : Bool)
  | resultTimeout
  | errored
deriving DecidableEq

/-- future_to_domain construction shared by the three orchestrators
(FindNames.py line 66, aidomains.py line 142, checkcomorai.py line 95):
exactly one submitted task per candidate, in candidate order; the task's
eventual outcome is modelled by `f`. -/
def submittedTasks (candidates : List String) (f : String → TaskOutcome) :
    List (String × TaskOutcome) :=
  candidates.map fun d => (d, f d)

/-- The as_completed result loop shared by FindNames.py lines 68-85,
aidomains.py lines 144-161 and checkcomorai.py lines 98-120, applied to the
tasks in completion order: a task that returned `(d, True)` appends `d`
under the lock; a `False` verdict, a result-collection timeout and any
other exception all just log and continue with the remaining tasks. -/
def collectAvailable : List (String × TaskOutcome) → List String
  | [] => []
  | (d, TaskOutcome.done true) :: rest => d :: collectAvailable rest
  | (_, TaskOutcome.done false) :: rest => collectAvailable rest
  | (_, TaskOutcome.resultTimeout) :: rest => collectAvailable rest
  | (_, TaskOutcome.errored) :: rest => collectAvailable rest

/-- Lexicographic comparison of character lists by code point, the order
Python uses to compare strings: equal heads recurse, unequal heads compare,
and a proper prefix sorts first. -/
def charsLe : List Char → List Char → Bool
  | [], _ => true
  | _ :: _, [] => false
  | a :: as, b :: bs => if a == b then charsLe as bs else decide (a < b)

/-- Python's string comparison `a <= b` (lexicographic by code point). -/
def pyStrLe (a b : String) : Bool :=
  charsLe a.data b.data

/-- The ordering relation Python's `list.sort()` sorts strings by. -/
def pyLeRel (a b : String) : Prop := pyStrLe a b = true

instance : DecidableRel pyLeRel := fun a b => by
  unfold pyLeRel; infer_instance

/-- Python's `list.sort()` on strings: ascending lexicographic order
(modelled by insertion sort, which computes the same sorted list). -/
def pySortStrings (l : List String) : List String :=
  List.insertionSort pyLeRel l

/-- Final available list handed to the reporter by aidomains.py: the
collected list after `available_domains.sort()` (line 164). -/
def aidomains_final (events : List (String × TaskOutcome)) : List String :=
  pySortStrings (collectAvailable events)

/-- Final available list handed to the reporter by checkcomorai.py: the
collected list after `available_domains.sort()` (line 123). -/
def checkcomorai_final (events : List (String × TaskOutcome)) : List String :=
  pySortStrings (collectAvailable events)

/-- Final available list handed to the reporter by FindNames.py: the
collected list as accumulated, in completion order — FindNames.py never
sorts it (lines 87-102 print and write `available_domains` directly). -/
def findnames_final (events : List (String × TaskOutcome)) : List String :=
  collectAvailable events

/-! ### Per-script timeout constants (seconds) -/

/-- Per-request network timeout of FindNames.py line 20 (curl subprocess). -/
def findnames_request_timeout_s : Nat := 5

/-- Result-collection timeout of FindNames.py line 73. -/
def findnames_result_timeout_s : Nat := 20

/-- Per-request network timeout of aidomains.py line 14 (default parameter). -/
def aidomains_request_timeout_s : Nat := 10

/-- Result-collection timeout of aidomains.py line 150. -/
def aidomains_result_timeout_s : Nat := 30

/-- Per-request network timeout of checkcomorai.py line 19 (default parameter). -/
def checkcomorai_request_timeout_s : Nat := 10

/-- Result-collection timeout of checkcomorai.py line 104. -/
def checkcomorai_result_timeout_s : Nat := 25

/-! ### FindNames.py reporting (lines 87-102) -/

/-- Domain lines written to available_domains.txt by FindNames.py lines
100-102: the loop body writes each available domain twice. -/
def findnames_file_domain_lines : List String → List String
  | [] => []
  | d :: rest => d :: d :: findnames_file_domain_lines rest

/-- Domain lines printed in the console summary by FindNames.py lines
89-90: one dash-prefixed line per available domain. -/
def findnames_console_domain_lines : List String → List String
  | [] => []
  | d :: rest => ("- " ++ d) :: findnames_console_domain_lines rest

/-! ### aidomains.py candidate generation (lines 78-133) -/

/-- load_words of aidomains.py lines 78-94: each line stripped and
lower-cased, kept only if alphabetic, collected into a set (modelled by
deduplication). -/
def aidomains_load_words (lines : List String) : List String :=
  ((lines.map fun l => pyLower (pyStrip l)).filter pyIsAlpha).dedup

/-- Word filter of aidomains.py line 125: `4 == len(word)`. -/
def aidomains_filtered_words (ws : List String) : List String :=
  ws.filter fun w => 4 == w.length

/-- Candidate generation of aidomains.py line 133: one ai domain per
filtered word. -/
def aidomains_domains_to_check (ws : List String) : List String :=
  (aidomains_filtered_words ws).map fun w => w ++ ".ai"

/-- Argparse description string of aidomains.py line 97, which describes
the selection as 5 or 6 letter words. -/
def aidomainsArgDescription : String :=
  "Check availability of 5 or 6 letter .ai domains from a dictionary."

/-! ### Spec-side definition for the 200-status JSON inspection -/

/-- Modelled from the spec (section 4.2, the 200 branch): parse the body as
JSON; if parsing fails, Unavailable; if it parses to an object whose
errorCode field equals 400 or 404, Available; otherwise Unavailable.
Written from the spec's words, to be compared with the code's classifiers. -/
def specStatus200Verdict : Option Json → Bool
  | some (Json.obj fields) =>
    match jsonGet fields "errorCode" with
    | some (Json.num n) => decide (n = 400 ∨ n = 404)
    | _ => false
  | _ => false

/-! ### Properties of the string order used by the sort -/

theorem charsLe_total : ∀ as bs : List Char, charsLe as bs = true ∨ charsLe bs as = true := by
  intro as
  induction as with
  | nil => intro bs; left; rfl
  | cons a as ih =>
    intro bs
    cases bs with
    | nil => right; rfl
    | cons b bs =>
      by_cases hab : a = b
      · subst hab
        rcases ih bs with h | h
        · left; simpa [charsLe] using h
        · right; simpa [charsLe] using h
      · rcases lt_or_gt_of_ne hab with h | h
        · left; simp [charsLe, hab, h]
        · right; simp [charsLe, Ne.symm hab, h]

theorem charsLe_trans : ∀ as bs cs : List Char,
    charsLe as bs = true → charsLe bs cs = true → charsLe as cs = true := by
  intro as
  induction as with
  | nil => intro bs cs _ _; rfl
  | cons a as ih =>
    intro bs cs h1 h2
    cases bs with
    | nil => simp [charsLe] at h1
    | cons b bs =>
      cases cs with
      | nil => simp [charsLe] at h2
      | cons c cs =>
        by_cases hab : a = b <;> by_cases hbc : b = c
        · subst hab; subst hbc
          simp only [charsLe, beq_self_eq_true, if_pos] at h1 h2 ⊢
          exact ih bs cs h1 h2
        · subst hab
          simp only [charsLe, beq_self_eq_true, if_pos] at h1
          simp only [charsLe, beq_iff_eq, hbc, if_false, decide_eq_true_eq] at h2
          simp [charsLe, hbc, h2]
        · subst hbc
          simp only [charsLe, beq_iff_eq, hab, if_false, decide_eq_true_eq] at h1
          simp [charsLe, hab, h1]
        · simp only [charsLe, beq_iff_eq, hab, hbc, if_false, decide_eq_true_eq] at h1 h2
          have hac : a < c := lt_trans h1 h2
          simp [charsLe, ne_of_lt hac, hac]

theorem charsLe_antisymm : ∀ as bs : List Char,
    charsLe as bs = true → charsLe bs as = true → as = bs := by
  intro as
  induction as with
  | nil =>
    intro bs _ h2
    cases bs with
    | nil => rfl
    | cons b bs => simp [charsLe] at h2
  | cons a as ih =>
    intro bs h1 h2
    cases bs with
    | nil => simp [charsLe] at h1
    | cons b bs =>
      by_cases hab : a = b
      · subst hab
        simp only [charsLe, beq_self_eq_true, if_pos] at h1 h2
        rw [ih bs h1 h2]
      · simp only [charsLe, beq_iff_eq, hab, Ne.symm hab, if_false, decide_eq_true_eq] at h1 h2
        exact absurd h2 (lt_asymm h1)

instance : IsTotal String pyLeRel :=
  ⟨fun a b => charsLe_total a.data b.data⟩

instance : IsTrans String pyLeRel :=
  ⟨fun a b c h1 h2 => charsLe_trans a.data b.data c.data h1 h2⟩

instance : IsAntisymm String pyLeRel :=
  ⟨fun a b h1 h2 => by
    cases a; cases b
    exact congrArg String.mk (charsLe_antisymm _ _ h1 h2)⟩

/-- The result loop keeps exactly the first components of the events whose
outcome is a completed check with a True verdict. -/
theorem collectAvailable_eq (l : List (String × TaskOutcome)) :
    collectAvailable l =
      (l.filter fun p => decide (p.2 = TaskOutcome.done true)).map Prod.fst := by
  induction l with
  | nil => rfl
  | cons p rest ih =>
    obtain ⟨d, o⟩ := p
    cases o with
    | done av => cases av <;> simp [collectAvailable, List.filter, ih]
    | resultTimeout => simp [collectAvailable, List.filter, ih]
    | errored => simp [collectAvailable, List.filter, ih]

/-- Permutation-invariance of the collected available list, up to
permutation: completion order only permutes the collected entries. -/
theorem collectAvailable_perm {e₁ e₂ : List (String × TaskOutcome)} (h : e₁.Perm e₂) :
    (collectAvailable e₁).Perm (collectAvailable e₂) := by
  rw [collectAvailable_eq, collectAvailable_eq]
  exact (h.filter _).map _

/-- Appending the same string on the right is injective, so the console
listing counts domains exactly. -/
theorem string_append_right_inj (s a b : String) : s ++ a = s ++ b ↔ a = b := by
  constructor
  · intro h
    cases s with
    | mk sd =>
      cases a with
      | mk ad =>
        cases b with
        | mk bd =>
          have h2 : sd ++ ad = sd ++ bd := congrArg String.data h
          exact congrArg String.mk (List.append_cancel_left h2)
  · intro h; rw [h]

/-! ### Claim C1 -/

/-- Claim C1 counterexample: a probe answered with HTTP status 200 and the
RDAP error body with errorCode 404 must, per the claim, be classified
Available; FindNames.py classifies it Unavailable, because curl runs with
the -I flag and its classifier sees only the header line (which contains
200 and not 404), never the body. -/
theorem C1_counterexample :
    findnames_is_domain_available "somedomain.com"
        (fun _ => CurlOutcome.ok (statusLineFor 200)) = false ∧
    specStatus200Verdict (some (Json.obj [("errorCode", Json.num 404)])) = true := by
  exact ⟨by decide, rfl⟩

/-- Claim C1, amended: the requests-based classifiers (checkcomorai.py and
aidomains.py) perform the JSON inspection on every status-200 response,
returning Available exactly when the body is a JSON object whose errorCode
is 400 or 404; the curl-based FindNames.py instead decides from the status
line alone and returns Unavailable on any 200 line without 404 in it,
never inspecting a body. -/
theorem C1_json_inspection_on_200 :
    (∀ body : Option Json, checkcomorai_classify 200 body = specStatus200Verdict body) ∧
    (∀ body : Option Json, aidomains_classify 200 body = specStatus200Verdict body) ∧
    (∀ stdout : String,
        hasSub (firstLineOf stdout) "404" = false →
        hasSub (firstLineOf stdout) "200" = true →
        curlHeaderClassify stdout = false) := by
  have hjson : ∀ body : Option Json, jsonBodySignalsAvailable body = specStatus200Verdict body := by
    intro body
    cases body with
    | none => rfl
    | some j =>
      cases j with
      | obj fields =>
        show (match jsonGet fields "errorCode" with
              | some (Json.num n) => n == 400 || n == 404
              | _ => false) =
             (match jsonGet fields "errorCode" with
              | some (Json.num n) => decide (n = 400 ∨ n = 404)
              | _ => false)
        cases hg : jsonGet fields "errorCode" with
        | none => rfl
        | some v =>
          cases v with
          | num n => by_cases h4 : n = 400 <;> by_cases h4b : n = 404 <;> simp [h4, h4b]
          | str s => rfl
          | jbool b => rfl
          | null => rfl
          | arr elems => rfl
          | obj fields2 => rfl
      | num n => rfl
      | str s => rfl
      | jbool b => rfl
      | null => rfl
      | arr elems => rfl
  refine ⟨fun body => hjson body, fun body => hjson body, ?_⟩
  intro stdout h4 h2
  simp [curlHeaderClassify, h4, h2]

/-- Claim C1 witness: the amended theorem applied to a concrete 200-status
header line. -/
theorem C1_witness :
    curlHeaderClassify "HTTP/2 200 \r\nserver: x" = false :=
  C1_json_inspection_on_200.2.2 "HTTP/2 200 \r\nserver: x" (by decide) (by decide)

/-! ### Claim C2 -/

/-- Claim C2 counterexample: a candidate with suffix com whose probe would
answer 404 is still classified Unavailable by aidomains.py, which rejects
every non-ai suffix before any request is made — the 404 verdict is not
suffix-independent there. -/
theorem C2_counterexample :
    aidomains_is_domain_available "word.com" (fun _ => NetOutcome.ok 404 none) = false := by
  rfl

/-- Claim C2, amended: a probe response with HTTP status 404 yields the
verdict Available for every candidate and body in checkcomorai.py
(whatever the suffix) and in FindNames.py (whose header line then contains
404); in aidomains.py it does so only for candidates whose suffix is ai,
since any other suffix is rejected as Unavailable without probing. -/
theorem C2_status_404_available :
    (∀ (d : String) (net : String → NetOutcome) (body : Option Json),
        net (checkcomorai_resolve d) = NetOutcome.ok 404 body →
        checkcomorai_is_domain_available d net = true) ∧
    (∀ (d : String) (net : String → NetOutcome) (body : Option Json),
        lastLabel d = "ai" →
        net (pyFormat RDAP_AI_ENDPOINT d) = NetOutcome.ok 404 body →
        aidomains_is_domain_available d net = true) ∧
    (∀ (d : String) (net : String → CurlOutcome) (stdout : String),
        net (findnames_url d) = CurlOutcome.ok stdout →
        hasSub (firstLineOf stdout) "404" = true →
        findnames_is_domain_available d net = true) := by
  refine ⟨?_, ?_, ?_⟩
  · intro d net body h
    simp [checkcomorai_is_domain_available, h, checkcomorai_classify]
  · intro d net body hai h
    simp [aidomains_is_domain_available, aidomains_resolve, hai, h, aidomains_classify]
  · intro d net stdout h h404
    simp [findnames_is_domain_available, h, curlHeaderClassify, h404]

/-- Claim C2 witness: the amended theorem applied to one concrete candidate
per script, each with a 404 probe answer. -/
theorem C2_witness :
    checkcomorai_is_domain_available "soil.zz" (fun _ => NetOutcome.ok 404 none) = true ∧
    aidomains_is_domain_available "soil.ai" (fun _ => NetOutcome.ok 404 none) = true ∧
    findnames_is_domain_available "soil.com" (fun _ => CurlOutcome.ok "HTTP/2 404 \r\n") = true :=
  ⟨C2_status_404_available.1 "soil.zz" _ none rfl,
   C2_status_404_available.2.1 "soil.ai" _ none (by decide) rfl,
   C2_status_404_available.2.2 "soil.com" _ _ rfl (by decide)⟩

/-! ### Claim C3 -/

/-- Claim C3 counterexample: resolution does not always succeed in two of
the cited scripts — checkdomains_curl.py produces no query URL for an
unknown suffix and aidomains.py produces none for any non-ai suffix (both
classify the candidate Unavailable without probing instead of falling back
to the IANA bootstrap). -/
theorem C3_counterexample :
    checkdomainscurl_resolve "x.zz" = none ∧ aidomains_resolve "x.com" = none := by
  exact ⟨by decide, by decide⟩

/-- Claim C3, amended: only checkcomorai.py's resolver always returns a
query URL — the mapped template for a suffix in its static table and the
universal IANA bootstrap URL otherwise; aidomains.py resolves only the
suffix ai and checkdomains_curl.py only com and ai, returning no URL for
every other suffix. -/
theorem C3_resolver_fallback :
    (∀ d : String, tableLookup RDAP_ENDPOINTS (lastLabel d) = none →
        checkcomorai_resolve d = "https://rdap.iana.org/domain/" ++ d) ∧
    (∀ (d t : String), tableLookup RDAP_ENDPOINTS (lastLabel d) = some t →
        checkcomorai_resolve d = pyFormat t d) ∧
    (∀ d : String, lastLabel d ≠ "ai" → aidomains_resolve d = none) ∧
    (∀ d : String, lastLabel d ≠ "com" → lastLabel d ≠ "ai" →
        checkdomainscurl_resolve d = none) := by
  refine ⟨?_, ?_, ?_, ?_⟩
  · intro d h; unfold checkcomorai_resolve; rw [h]
  · intro d t h; unfold checkcomorai_resolve; rw [h]
  · intro d h; simp [aidomains_resolve, h]
  · intro d hcom hai; simp [checkdomainscurl_resolve, hcom, hai]

/-- Claim C3 witness: the amended theorem applied to concrete candidates
with mapped, unmapped and unsupported suffixes. -/
theorem C3_witness :
    checkcomorai_resolve "x.zz" = "https://rdap.iana.org/domain/" ++ "x.zz" ∧
    checkcomorai_resolve "x.com" =
      pyFormat "https://rdap.verisign.com/com/v1/domain/\x7b\x7d" "x.com" ∧
    aidomains_resolve "x.dev" = none ∧
    checkdomainscurl_resolve "x.dev" = none :=
  ⟨C3_resolver_fallback.1 "x.zz" (by decide),
   C3_resolver_fallback.2.1 "x.com" _ (by decide),
   C3_resolver_fallback.2.2.1 "x.dev" (by decide),
   C3_resolver_fallback.2.2.2 "x.dev" (by decide) (by decide)⟩

/-! ### Claim C4 -/

/-- Claim C4 counterexample: FindNames.py hands the available list to the
reporter without sorting it, so two completion orders of the same two
available candidates produce different reported lists. -/
theorem C4_counterexample :
    (([("b.com", TaskOutcome.done true), ("a.com", TaskOutcome.done true)] :
        List (String × TaskOutcome)).Perm
      [("a.com", TaskOutcome.done true), ("b.com", TaskOutcome.done true)]) ∧
    findnames_final [("b.com", TaskOutcome.done true), ("a.com", TaskOutcome.done true)] ≠
      findnames_final [("a.com", TaskOutcome.done true), ("b.com", TaskOutcome.done true)] :=
  ⟨List.Perm.swap ("a.com", TaskOutcome.done true) ("b.com", TaskOutcome.done true) [],
   by decide⟩

/-- Claim C4, amended: aidomains.py and checkcomorai.py sort the
accumulated available list lexicographically before reporting, so their
reported list is the same for any two completion orders that are
permutations of each other (and is always sorted); FindNames.py reports
the list in completion order, unsorted. -/
theorem C4_sorted_reporting :
    (∀ e₁ e₂ : List (String × TaskOutcome), e₁.Perm e₂ →
        aidomains_final e₁ = aidomains_final e₂ ∧
        checkcomorai_final e₁ = checkcomorai_final e₂) ∧
    (∀ e : List (String × TaskOutcome),
        (aidomains_final e).Sorted pyLeRel ∧ (checkcomorai_final e).Sorted pyLeRel) := by
  constructor
  · intro e₁ e₂ h
    have hc := collectAvailable_perm h
    have key : pySortStrings (collectAvailable e₁) = pySortStrings (collectAvailable e₂) :=
      List.eq_of_perm_of_sorted
        (((List.perm_insertionSort pyLeRel _).trans hc).trans
          (List.perm_insertionSort pyLeRel _).symm)
        (List.sorted_insertionSort pyLeRel _) (List.sorted_insertionSort pyLeRel _)
    exact ⟨key, key⟩
  · intro e
    exact ⟨List.sorted_insertionSort pyLeRel _, List.sorted_insertionSort pyLeRel _⟩

/-- Claim C4 witness: the amended theorem applied to two concrete
completion orders of the same events. -/
theorem C4_witness :
    aidomains_final [("b.ai", TaskOutcome.done true), ("a.ai", TaskOutcome.done true)] =
      aidomains_final [("a.ai", TaskOutcome.done true), ("b.ai", TaskOutcome.done true)] :=
  (C4_sorted_reporting.1 _ _
    (List.Perm.swap ("a.ai", TaskOutcome.done true) ("b.ai", TaskOutcome.done true) [])).1

/-! ### Claim C5 -/

/-- Claim C5: when the result-collection wait for one task times out, that
candidate contributes nothing to the available list and the loop continues
with the remaining tasks; the result-collection timeouts are 20 s
(FindNames.py), 30 s (aidomains.py) and 25 s (checkcomorai.py), each in
the 20-30 s range and larger than the script's per-request network
timeout. -/
theorem C5_result_timeout_skips :
    (∀ (l₁ l₂ : List (String × TaskOutcome)) (d : String),
        collectAvailable (l₁ ++ (d, TaskOutcome.resultTimeout) :: l₂) =
          collectAvailable l₁ ++ collectAvailable l₂) ∧
    (∀ (d : String) (l₁ l₂ : List (String × TaskOutcome)),
        (∀ p ∈ l₁ ++ l₂, p.1 ≠ d) →
        d ∉ collectAvailable (l₁ ++ (d, TaskOutcome.resultTimeout) :: l₂)) ∧
    (findnames_request_timeout_s < findnames_result_timeout_s ∧
      20 ≤ findnames_result_timeout_s ∧ findnames_result_timeout_s ≤ 30) ∧
    (aidomains_request_timeout_s < aidomains_result_timeout_s ∧
      20 ≤ aidomains_result_timeout_s ∧ aidomains_result_timeout_s ≤ 30) ∧
    (checkcomorai_request_timeout_s < checkcomorai_result_timeout_s ∧
      20 ≤ checkcomorai_result_timeout_s ∧ checkcomorai_result_timeout_s ≤ 30) := by
  refine ⟨?_, ?_, by decide, by decide, by decide⟩
  · intro l₁ l₂ d
    simp [collectAvailable_eq, List.filter_append]
  · intro d l₁ l₂ h
    rw [collectAvailable_eq]
    intro hmem
    obtain ⟨p, hp, hpd⟩ := List.mem_map.mp hmem
    obtain ⟨hpl, hptrue⟩ := List.mem_filter.mp hp
    rcases List.mem_append.mp hpl with h1 | h2
    · exact h p (List.mem_append.mpr (Or.inl h1)) hpd
    · rcases List.mem_cons.mp h2 with he | h3
      · rw [he] at hptrue; simp at hptrue
      · exact h p (List.mem_append.mpr (Or.inr h3)) hpd

/-- Claim C5 witness: the theorem applied to a concrete event list with
one timed-out task. -/
theorem C5_witness :
    "b.ai" ∉ collectAvailable
        [("a.ai", TaskOutcome.done true), ("b.ai", TaskOutcome.resultTimeout)] :=
  C5_result_timeout_skips.2.1 "b.ai" [("a.ai", TaskOutcome.done true)] [] (by decide)

/-! ### Claim C6 -/

/-- Claim C6: when the network request raises a timeout or any
network-level error, every prober returns the verdict Unavailable; the
embedded probers are total functions, so no exception escapes them. -/
theorem C6_network_error_unavailable :
    (∀ (d : String) (net : String → NetOutcome),
        (∀ u, net u = NetOutcome.timeout ∨ net u = NetOutcome.netError) →
        checkcomorai_is_domain_available d net = false) ∧
    (∀ (d : String) (net : String → NetOutcome),
        (∀ u, net u = NetOutcome.timeout ∨ net u = NetOutcome.netError) →
        aidomains_is_domain_available d net = false) ∧
    (∀ (d : String) (net : String → CurlOutcome),
        (∀ u, net u = CurlOutcome.exc) →
        findnames_is_domain_available d net = false) ∧
    (∀ (d : String) (net : String → CurlOutcome),
        (∀ u, net u = CurlOutcome.exc) →
        checkdomainscurl_is_domain_available d net = false) := by
  refine ⟨?_, ?_, ?_, ?_⟩
  · intro d net h
    rcases h (checkcomorai_resolve d) with h1 | h1 <;>
      simp [checkcomorai_is_domain_available, h1]
  · intro d net h
    unfold aidomains_is_domain_available
    cases haid : aidomains_resolve d with
    | none => rfl
    | some url => rcases h url with h1 | h1 <;> simp [h1]
  · intro d net h
    simp [findnames_is_domain_available, h (findnames_url d)]
  · intro d net h
    unfold checkdomainscurl_is_domain_available
    cases hres : checkdomainscurl_resolve d with
    | none => rfl
    | some url => simp [h url]

/-- Claim C6 witness: the theorem applied to concrete candidates with an
always-failing network. -/
theorem C6_witness :
    checkcomorai_is_domain_available "soil.com" (fun _ => NetOutcome.timeout) = false ∧
    aidomains_is_domain_available "soil.ai" (fun _ => NetOutcome.netError) = false ∧
    findnames_is_domain_available "soil.com" (fun _ => CurlOutcome.exc) = false ∧
    checkdomainscurl_is_domain_available "soil.ai" (fun _ => CurlOutcome.exc) = false :=
  ⟨C6_network_error_unavailable.1 "soil.com" _ (fun _ => Or.inl rfl),
   C6_network_error_unavailable.2.1 "soil.ai" _ (fun _ => Or.inr rfl),
   C6_network_error_unavailable.2.2.1 "soil.com" _ (fun _ => rfl),
   C6_network_error_unavailable.2.2.2 "soil.ai" _ (fun _ => rfl)⟩

/-! ### Claim C7 -/

/-- Claim C7 counterexample: in the curl-based scripts the delay applied
after a 429 status line is a fixed 2000 ms sleep — not a randomized delay
on the order of hundreds of milliseconds (it exceeds 999 ms and admits a
single value). -/
theorem C7_counterexample :
    curlSleepMs "HTTP/1.1 429 Too Many Requests\r\n" = 2000 ∧
    curlHeaderClassify "HTTP/1.1 429 Too Many Requests\r\n" = false ∧
    ¬(curlSleepMs "HTTP/1.1 429 Too Many Requests\r\n" ≤ 999) := by
  exact ⟨by decide, by decide, by decide⟩

/-- Claim C7, amended: a 429 probe yields Unavailable in every script with
no retry (each candidate is submitted exactly once); aidomains.py applies a
randomized delay between 100 ms and 300 ms after every completed request;
the curl-based scripts instead sleep a fixed 2000 ms when the status line
contains 429 (and neither 404 nor 200 matched first). -/
theorem C7_rate_limited :
    (∀ body : Option Json, aidomains_classify 429 body = false) ∧
    (∀ stdout : String,
        hasSub (firstLineOf stdout) "404" = false →
        hasSub (firstLineOf stdout) "200" = false →
        curlHeaderClassify stdout = false ∧
          (hasSub (firstLineOf stdout) "429" = true → curlSleepMs stdout = 2000)) ∧
    (∀ ms, aidomainsSleepMsPossible ms → 100 ≤ ms ∧ ms ≤ 999) ∧
    (aidomainsSleepMsPossible 100 ∧ aidomainsSleepMsPossible 300) ∧
    (∀ (cs : List String) (f : String → TaskOutcome),
        (submittedTasks cs f).map Prod.fst = cs) := by
  refine ⟨fun body => rfl, ?_, ?_, ⟨by decide, by decide⟩, ?_⟩
  · intro stdout h4 h2
    constructor
    · simp [curlHeaderClassify, h4, h2]
    · intro h9; simp [curlSleepMs, h4, h2, h9]
  · intro ms hms
    unfold aidomainsSleepMsPossible at hms
    omega
  · intro cs f
    simp only [submittedTasks, List.map_map]
    have hcomp : (Prod.fst ∘ fun d => (d, f d)) = id := rfl
    rw [hcomp, List.map_id]

/-- Claim C7 witness: the amended theorem applied to a concrete 429 header
line and a concrete possible sleep duration. -/
theorem C7_witness :
    curlHeaderClassify "HTTP/2 429 \nrest" = false ∧
    curlSleepMs "HTTP/2 429 \nrest" = 2000 ∧
    (100 ≤ 250 ∧ 250 ≤ 999) :=
  ⟨(C7_rate_limited.2.1 "HTTP/2 429 \nrest" (by decide) (by decide)).1,
   (C7_rate_limited.2.1 "HTTP/2 429 \nrest" (by decide) (by decide)).2 (by decide),
   C7_rate_limited.2.2.1 250 (by decide)⟩

/-! ### Claim C8 -/

/-- Claim C8: FindNames.py writes each available domain to the output file
twice (two identical lines per domain) while the console summary lists
each exactly once. -/
theorem C8_file_double_write :
    ∀ (avail : List String) (d : String),
      (findnames_file_domain_lines avail).count d = 2 * avail.count d ∧
      (findnames_console_domain_lines avail).count ("- " ++ d) = avail.count d ∧
      (findnames_console_domain_lines avail).length = avail.length := by
  intro avail d
  induction avail with
  | nil => exact ⟨rfl, rfl, rfl⟩
  | cons a rest ih =>
    obtain ⟨ih1, ih2, ih3⟩ := ih
    refine ⟨?_, ?_, ?_⟩
    · simp only [findnames_file_domain_lines, List.count_cons, ih1, beq_iff_eq]
      by_cases h : a = d
      · simp [h]; omega
      · simp [h]
    · have hiff := string_append_right_inj "- " a d
      by_cases h : a = d
      · subst h
        simp [findnames_console_domain_lines, List.count_cons, ih2]
      · have hne : ("- " ++ a) ≠ ("- " ++ d) := fun hh => h (hiff.mp hh)
        simp [findnames_console_domain_lines, List.count_cons, ih2, h, hne]
    · simp [findnames_console_domain_lines, ih3]

/-! ### Claim C9 -/

/-- Claim C9: the curl-based classification looks only at the first line
of the header text; a first line containing 404 anywhere is Available
(the 404 check runs before the 200 check), a first line without 404 is
Unavailable, and an empty response has an empty first line and is
Unavailable. -/
theorem C9_first_line_substring :
    (∀ s t : String, firstLineOf s = firstLineOf t →
        curlHeaderClassify s = curlHeaderClassify t) ∧
    (∀ s : String, hasSub (firstLineOf s) "404" = true → curlHeaderClassify s = true) ∧
    (∀ s : String, hasSub (firstLineOf s) "404" = false → curlHeaderClassify s = false) ∧
    firstLineOf "" = "" ∧ curlHeaderClassify "" = false := by
  refine ⟨?_, ?_, ?_, rfl, rfl⟩
  · intro s t h
    unfold curlHeaderClassify
    rw [h]
  · intro s h
    simp [curlHeaderClassify, h]
  · intro s h
    simp [curlHeaderClassify, h, ite_self]

/-- Claim C9 witness: the theorem applied to concrete header texts — a 404
embedded in a 200 line wins, a 404 beyond the first line is ignored, and
two stdouts sharing a first line classify alike. -/
theorem C9_witness :
    curlHeaderClassify "HTTP/1.1 200 OK x404y\nnonsense" = true ∧
    curlHeaderClassify "HTTP/2 500 \nmore" = false ∧
    curlHeaderClassify "HTTP/2 204 No Content\n404 later" = false ∧
    curlHeaderClassify "HTTP/2 404 \nA" = curlHeaderClassify "HTTP/2 404 \nB" :=
  ⟨C9_first_line_substring.2.1 _ (by decide),
   C9_first_line_substring.2.2.1 _ (by decide),
   C9_first_line_substring.2.2.1 _ (by decide),
   C9_first_line_substring.1 _ _ (by decide)⟩

/-! ### Claim C10 -/

/-- Claim C10: aidomains.py keeps exactly the length-4 dictionary words —
its candidate set is the ai domains of the alphabetic words of length 4 —
even though its argparse description speaks of 5 or 6 letter words. -/
theorem C10_length_four_filter :
    (∀ (ws : List String) (d : String),
        d ∈ aidomains_domains_to_check ws ↔
          ∃ w, w ∈ ws ∧ w.length = 4 ∧ d = w ++ ".ai") ∧
    (∀ (lines : List String) (w : String),
        w ∈ aidomains_load_words lines → pyIsAlpha w = true) ∧
    hasSub aidomainsArgDescription "5 or 6" = true := by
  refine ⟨?_, ?_, by decide⟩
  · intro ws d
    constructor
    · intro h
      obtain ⟨w, hw, he⟩ :=
        List.mem_map.mp (by simpa [aidomains_domains_to_check] using h)
      obtain ⟨hmem, hlen⟩ := List.mem_filter.mp hw
      refine ⟨w, hmem, ?_, he.symm⟩
      have h4 : 4 = w.length := by simpa using hlen
      exact h4.symm
    · rintro ⟨w, hmem, hlen, hd⟩
      rw [hd]
      exact List.mem_map.mpr
        ⟨w, List.mem_filter.mpr ⟨hmem, by simpa using hlen.symm⟩, rfl⟩
  · intro lines w hw
    simp only [aidomains_load_words, List.mem_dedup, List.mem_filter] at hw
    exact hw.2

/-- Claim C10 witness: the theorem applied to a concrete one-word
dictionary. -/
theorem C10_witness :
    pyIsAlpha "quux" = true ∧ "quux.ai" ∈ aidomains_domains_to_check ["quux"] :=
  ⟨C10_length_four_filter.2.1 ["quux"] "quux" (by decide),
   (C10_length_four_filter.1 ["quux"] "quux.ai").mpr ⟨"quux", by decide, by decide, by decide⟩⟩

end FindDomains
